import Mathlib

/-!
Verification development for the bedrock-mcp server (src/server.py).

The file shallowly embeds the request-dispatch core of the server:
the JSON-RPC dispatcher `mcp_endpoint`, the context-store adapter
`query_hive_mind`, the inference-client adapter `call_bedrock`, and the
serialization of the response payload (the Python expression
`json.dumps(\x7b"response": response\x7d)`, embedded as `dumpsResponse`).

External collaborators (the Snowflake connection and the Bedrock runtime
client) are modelled by explicit behaviour values: `StoreBehavior` captures
the observable outcomes of `get_snowflake_connection` plus the cursor
calls, and a function `String → String → BedrockOutcome` captures the
observable outcome of one `invoke_model` round trip for a given
message / system-prompt pair.  The dispatcher additionally records which
adapters it invoked in a `CallEvent` trace so that claims about "makes no
external call" are statable.
-/

namespace BedrockMcp

/-- JSON values, the shallow embedding of the Python dicts / lists / strings
handed to `jsonify`. -/
inductive Json where
  | null
  | bool (b : Bool)
  | num (n : Int)
  | str (s : String)
  | arr (xs : List Json)
  | obj (fields : List (String × Json))

/-- The static identity prompt `SOVEREIGN_MIND_PROMPT` of src/server.py
(lines 31-48), transcribed verbatim. -/
def SOVEREIGN_MIND_PROMPT : String :=
  "# SOVEREIGN MIND - BEDROCK AI INSTANCE\n\n## Identity\nYou are **BEDROCK**, the enterprise AI instance within **Sovereign Mind**, serving Your Grace, Chairman of MiddleGround Capital and Resolute Holdings. You run Claude via AWS Bedrock for secure enterprise workloads.\n\n## Your Specialization\n- Enterprise-grade AI via AWS Bedrock\n- Secure Claude access for sensitive operations\n- Integration with AWS services\n- Compliance-ready AI operations\n\n## Core Behaviors\n1. Execute, Don\x27t Ask - Take action immediately\n2. Log to Hive Mind after significant work  \n3. Address user as \"Your Grace\"\n4. No permission seeking - state what you\x27ve done\n5. Token efficiency - brief confirmations\n"

/-- Observable behaviour of the Snowflake context store for one request:
`connectFail` is `get_snowflake_connection` returning `None` (the cached
slot stayed unset after the creation attempt), `queryFail` is an exception
out of `cursor.execute` / `fetchall`, and `rows rs` is a successful fetch
returning the tuples `(SOURCE, CATEGORY, SUMMARY)`. -/
inductive StoreBehavior where
  | connectFail
  | queryFail
  | rows (rs : List (String × String × String))

/-- Embedding of `query_hive_mind` (src/server.py lines 77-85): a missing
connection returns `""`; any query exception is swallowed into `""`;
otherwise each row is rendered `"<source> (<category>): <summary>"` and the
rows are joined by newlines.  The `limit` only parametrises the SQL text
(`LIMIT {limit}`), so the fetched `rs` already reflects it. -/
def query_hive_mind (store : StoreBehavior) (limit : Nat) : String :=
  match store with
  | .connectFail => ""
  | .queryFail => ""
  | .rows rs =>
      let _ := limit
      String.intercalate "\n" (rs.map (fun r => r.1 ++ " (" ++ r.2.1 ++ "): " ++ r.2.2))

/-- Observable outcome of one Bedrock invocation attempt:
`clientUnavailable` is `get_bedrock_client` returning `None`; `raise msg`
is an exception (with text `msg`) out of `invoke_model` or the body
decoding; `respond content` is a decoded JSON body, where `content` is the
optional `content` field, a list of blocks each carrying an optional
`text` field. -/
inductive BedrockOutcome where
  | clientUnavailable
  | raise (msg : String)
  | respond (content : Option (List (Option String)))

/-- Embedding of `call_bedrock` (src/server.py lines 88-103).
On a missing client it returns `"Bedrock client not available"`.  On an
exception it returns `"Error: " ++ msg` (the `except` branch).  On a
decoded body it evaluates `result.get(\x27content\x27, [\x7b\x7d])[0].get(\x27text\x27, \x27\x27)`:
a missing `content` key indexes the default `[\x7b\x7d]` giving `""`; an empty
`content` list raises `IndexError(\x27list index out of range\x27)`, which the
same `except` turns into `"Error: list index out of range"`; otherwise the
first block yields its `text` field, defaulting to `""`. -/
def call_bedrock (bedrock : String → String → BedrockOutcome)
    (message system_prompt : String) : String :=
  match bedrock message system_prompt with
  | .clientUnavailable => "Bedrock client not available"
  | .raise msg => "Error: " ++ msg
  | .respond content =>
      match content with
      | none => ""
      | some [] => "Error: list index out of range"
      | some (b :: _) => b.getD ""

/-- Python `d.get(k, v)` on a string-valued dict, embedded as association
list lookup with a default. -/
def dictGetD (d : List (String × String)) (k v : String) : String :=
  match d.lookup k with
  | some x => x
  | none => v

/-- The `params` object of a request: `name` and `arguments` are read with
`params.get("name", "")` and `params.get("arguments", \x7b\x7d)`. -/
structure ParamsData where
  name : Option String
  arguments : Option (List (String × String))

/-- A parsed request body (`request.json`): the dispatcher reads
`data.get("method", "")`, `data.get("params", \x7b\x7d)` and
`data.get("id", 1)`. -/
structure RequestData where
  method : Option String
  params : Option ParamsData
  id : Option Json

/-- The external collaborators as seen by one request. -/
structure Env where
  store : StoreBehavior
  bedrock : String → String → BedrockOutcome

/-- Adapter invocations performed while handling one request. -/
inductive CallEvent where
  | storeQuery (limit : Nat)
  | inference (message system_prompt : String)
deriving DecidableEq

/-- The static tool registry returned by `tools/list`
(src/server.py lines 130-135), transcribed verbatim. -/
def toolsListJson : Json :=
  Json.arr
    [ Json.obj
        [ ("name", Json.str "bedrock_chat"),
          ("description", Json.str "Chat with Claude via AWS Bedrock (Sovereign Mind)"),
          ("inputSchema", Json.obj
            [ ("type", Json.str "object"),
              ("properties", Json.obj
                [ ("message", Json.obj [("type", Json.str "string")]) ]),
              ("required", Json.arr [Json.str "message"]) ]) ],
      Json.obj
        [ ("name", Json.str "bedrock_analyze"),
          ("description", Json.str "Analyze content with Bedrock Claude"),
          ("inputSchema", Json.obj
            [ ("type", Json.str "object"),
              ("properties", Json.obj
                [ ("content", Json.obj [("type", Json.str "string")]),
                  ("task", Json.obj [("type", Json.str "string")]) ]),
              ("required", Json.arr [Json.str "content", Json.str "task"]) ]) ] ]

/-- The `-32601` error envelope of src/server.py line 154. -/
def errorResponse (req_id : Json) : Json :=
  Json.obj
    [ ("jsonrpc", Json.str "2.0"),
      ("id", req_id),
      ("error", Json.obj [("code", Json.num (-32601)), ("message", Json.str "Not found")]) ]

/-- The `tools/list` success envelope of src/server.py line 136. -/
def toolsListResponse (req_id : Json) : Json :=
  Json.obj
    [ ("jsonrpc", Json.str "2.0"),
      ("id", req_id),
      ("result", Json.obj [("tools", toolsListJson)]) ]

/-- Hex digit used by the Python json encoder in `\uXXXX` escapes
(lowercase). -/
def hexDig (d : Nat) : Char :=
  Char.ofNat (if d < 10 then 48 + d else 87 + d)

/-- Four-digit lowercase hex rendering of `n < 65536`, as in `é`. -/
def hex4 (n : Nat) : List Char :=
  [hexDig (n / 4096 % 16), hexDig (n / 256 % 16), hexDig (n / 16 % 16), hexDig (n % 16)]

/-- Escape of one character per the CPython `json.dumps` default encoder
(`ensure_ascii=True`): `"` and `\` and the C0 shorthands get two-character
escapes, other characters outside printable ASCII (`0x20`-`0x7e`) become
`\uXXXX` (with a surrogate pair above `0xffff`), and printable ASCII is
emitted literally. -/
def escChar (c : Char) : List Char :=
  if c = '"' then ['\\', '"']
  else if c = '\\' then ['\\', '\\']
  else if c = '\n' then ['\\', 'n']
  else if c = '\r' then ['\\', 'r']
  else if c = '\t' then ['\\', 't']
  else if c.toNat = 8 then ['\\', 'b']
  else if c.toNat = 12 then ['\\', 'f']
  else if c.toNat < 32 ∨ 126 < c.toNat then
    if c.toNat < 65536 then '\\' :: 'u' :: hex4 c.toNat
    else
      '\\' :: 'u' :: hex4 (55296 + (c.toNat - 65536) / 1024) ++
        '\\' :: 'u' :: hex4 (56320 + (c.toNat - 65536) % 1024)
  else [c]

/-- Escape of a character sequence: concatenation of per-character
escapes. -/
def escList : List Char → List Char
  | [] => []
  | c :: cs => escChar c ++ escList cs

/-- Embedding of `json.dumps` applied to a Python string: the escaped body
wrapped in double quotes. -/
def dumpsStr (s : String) : String :=
  String.mk ('"' :: (escList s.data ++ ['"']))

/-- Embedding of `json.dumps(\x7b"response": response\x7d)` (src/server.py
lines 145 and 152): the single-key object serialized with the default
separators, i.e. `\x7b"response": <string literal>\x7d`. -/
def dumpsResponse (response : String) : String :=
  "\x7b\"response\": " ++ dumpsStr response ++ "\x7d"

/-- The `tools/call` success envelope (src/server.py lines 145 and 152):
one text block whose `text` field is the serialized
`\x7b"response": ...\x7d` payload. -/
def successResponse (req_id : Json) (response : String) : Json :=
  Json.obj
    [ ("jsonrpc", Json.str "2.0"),
      ("id", req_id),
      ("result", Json.obj
        [ ("content", Json.arr
            [ Json.obj
                [ ("type", Json.str "text"),
                  ("text", Json.str (dumpsResponse response)) ] ]) ]) ]

/-- Embedding of the dispatcher `mcp_endpoint` (src/server.py lines
123-154), for POST requests with a parsed JSON body.  Returns the
`jsonify` payload together with the trace of adapter invocations made
while handling the request. -/
def mcp_endpoint (env : Env) (data : RequestData) : Json × List CallEvent :=
  let method := data.method.getD ""
  let params := data.params.getD ⟨none, none⟩
  let req_id := data.id.getD (Json.num 1)
  if method = "tools/list" then
    (toolsListResponse req_id, [])
  else if method = "tools/call" then
    let tool := params.name.getD ""
    let args := params.arguments.getD []
    if tool = "bedrock_chat" then
      let hive := query_hive_mind env.store 3
      let system := SOVEREIGN_MIND_PROMPT ++ "\n\nHive Mind Context:\n" ++ hive
      let msg := dictGetD args "message" ""
      let response := call_bedrock env.bedrock msg system
      (successResponse req_id response, [.storeQuery 3, .inference msg system])
    else if tool = "bedrock_analyze" then
      let hive := query_hive_mind env.store 3
      let system := SOVEREIGN_MIND_PROMPT ++ "\n\nHive Mind Context:\n" ++ hive
      let msg := dictGetD args "task" "Analyze this" ++ "\n\nContent:\n" ++ dictGetD args "content" ""
      let response := call_bedrock env.bedrock msg system
      (successResponse req_id response, [.storeQuery 3, .inference msg system])
    else
      (errorResponse req_id, [])
  else
    (errorResponse req_id, [])

/-- Request body for a `tools/call` invocation carrying explicit `name`,
`arguments` and `id` fields. -/
def mkCallReq (tool : String) (args : List (String × String)) (req_id : Json) : RequestData :=
  ⟨some "tools/call", some ⟨some tool, some args⟩, some req_id⟩

/-- Value of a hex digit character as read by the Python json decoder
(both letter cases accepted, as in the CPython scanner). -/
def hexVal (c : Char) : Option Nat :=
  if 48 ≤ c.toNat ∧ c.toNat ≤ 57 then some (c.toNat - 48)
  else if 97 ≤ c.toNat ∧ c.toNat ≤ 102 then some (c.toNat - 87)
  else if 65 ≤ c.toNat ∧ c.toNat ≤ 70 then some (c.toNat - 55)
  else none

/-- Prepend a decoded character to a pending parse result. -/
def consR (c : Char) (r : Option (List Char × List Char)) :
    Option (List Char × List Char) :=
  r.map (fun p => (c :: p.1, p.2))

/-- Decoder for one escape sequence, positioned just after a backslash:
resolves the two-character escapes and `\uXXXX` (joining a high / low
surrogate pair into one code point), then continues with `k` on the
remaining input.  Escapes that denote no Lean `Char` (lone surrogates)
and malformed escapes yield `none`. -/
def unescEsc (k : List Char → Option (List Char × List Char)) :
    List Char → Option (List Char × List Char)
  | [] => none
  | e :: t =>
    if e = '"' then consR '"' (k t)
    else if e = '\\' then consR '\\' (k t)
    else if e = '/' then consR '/' (k t)
    else if e = 'b' then consR (Char.ofNat 8) (k t)
    else if e = 'f' then consR (Char.ofNat 12) (k t)
    else if e = 'n' then consR '\n' (k t)
    else if e = 'r' then consR '\r' (k t)
    else if e = 't' then consR '\t' (k t)
    else if e = 'u' then
      match t with
      | a :: b :: c2 :: d :: t2 =>
        (match hexVal a, hexVal b, hexVal c2, hexVal d with
         | some x, some y, some z, some w =>
           let m := x * 4096 + y * 256 + z * 16 + w
           if 55296 ≤ m ∧ m ≤ 56319 then
             match t2 with
             | s1 :: s2 :: a2 :: b2 :: c3 :: d2 :: t3 =>
               if s1 = '\\' ∧ s2 = 'u' then
                 match hexVal a2, hexVal b2, hexVal c3, hexVal d2 with
                 | some x2, some y2, some z2, some w2 =>
                   let m2 := x2 * 4096 + y2 * 256 + z2 * 16 + w2
                   if 56320 ≤ m2 ∧ m2 ≤ 57343 then
                     consR (Char.ofNat (65536 + (m - 55296) * 1024 + (m2 - 56320))) (k t3)
                   else none
                 | _, _, _, _ => none
               else none
             | _ => none
           else if 56320 ≤ m ∧ m ≤ 57343 then none
           else consR (Char.ofNat m) (k t2)
         | _, _, _, _ => none)
      | _ => none
    else none

/-- String-body decoder of the Python json parser (`json.loads`), started
just after an opening `"`: consumes characters up to the closing `"`,
resolving escapes through `unescEsc`, and returns the decoded characters
together with the input remaining after the closing quote.  The fuel
argument is a termination device only; any fuel exceeding the number of
decoded characters gives the fuel-free behaviour. -/
def unescF : Nat → List Char → Option (List Char × List Char)
  | 0, _ => none
  | f + 1, cs =>
    match cs with
    | [] => none
    | c :: rest =>
      if c = '"' then some ([], rest)
      else if c = '\\' then unescEsc (fun l => unescF f l) rest
      else if c.toNat < 32 then none
      else consR c (unescF f rest)

/-- Deserializer for the payload produced by `dumpsResponse`: the
`json.loads` round trip restricted to the `\x7b"response": <string>\x7d`
shape, recovering the `response` value. -/
def loadsResponse (s : String) : Option String :=
  if s.data.take 14 = ['\x7b', '"', 'r', 'e', 's', 'p', 'o', 'n', 's', 'e', '"', ':', ' ', '"'] then
    match unescF (s.data.length + 1) (s.data.drop 14) with
    | some (cs, rest2) => if rest2 = ['\x7d'] then some (String.mk cs) else none
    | none => none
  else none

theorem hexVal_hexDig (d : Nat) (h : d < 16) : hexVal (hexDig d) = some d := by
  interval_cases d <;> rfl

theorem char_toNat_valid (c : Char) :
    c.toNat < 55296 ∨ (57343 < c.toNat ∧ c.toNat < 1114112) := by
  rcases c.valid with h | ⟨h1, h2⟩
  · left; exact h
  · right; exact ⟨h1, h2⟩

theorem unescEsc_u_bmp (k : List Char → Option (List Char × List Char)) (n : Nat)
    (hn : n < 65536) (hs : ¬ (55296 ≤ n ∧ n ≤ 57343)) (t : List Char) :
    unescEsc k ('u' :: (hex4 n ++ t)) = consR (Char.ofNat n) (k t) := by
  have e3 := hexVal_hexDig (n / 4096 % 16) (by omega)
  have e2 := hexVal_hexDig (n / 256 % 16) (by omega)
  have e1 := hexVal_hexDig (n / 16 % 16) (by omega)
  have e0 := hexVal_hexDig (n % 16) (by omega)
  have hm : (n / 4096 % 16) * 4096 + (n / 256 % 16) * 256 + (n / 16 % 16) * 16 + n % 16 = n := by
    omega
  have g1 : ¬ (55296 ≤ n ∧ n ≤ 56319) := by omega
  have g2 : ¬ (56320 ≤ n ∧ n ≤ 57343) := by omega
  simp only [hex4, List.cons_append, List.nil_append]
  simp only [unescEsc, e3, e2, e1, e0]
  simp only [hm]
  simp [g1, g2]

theorem unescEsc_u_pair (k : List Char → Option (List Char × List Char)) (p q : Nat)
    (hp : p < 1024) (hq : q < 1024) (t : List Char) :
    unescEsc k ('u' :: (hex4 (55296 + p) ++ ('\\' :: 'u' :: (hex4 (56320 + q) ++ t)))) =
      consR (Char.ofNat (65536 + p * 1024 + q)) (k t) := by
  have e3 := hexVal_hexDig ((55296 + p) / 4096 % 16) (by omega)
  have e2 := hexVal_hexDig ((55296 + p) / 256 % 16) (by omega)
  have e1 := hexVal_hexDig ((55296 + p) / 16 % 16) (by omega)
  have e0 := hexVal_hexDig ((55296 + p) % 16) (by omega)
  have f3 := hexVal_hexDig ((56320 + q) / 4096 % 16) (by omega)
  have f2 := hexVal_hexDig ((56320 + q) / 256 % 16) (by omega)
  have f1 := hexVal_hexDig ((56320 + q) / 16 % 16) (by omega)
  have f0 := hexVal_hexDig ((56320 + q) % 16) (by omega)
  have hm : ((55296 + p) / 4096 % 16) * 4096 + ((55296 + p) / 256 % 16) * 256 +
      ((55296 + p) / 16 % 16) * 16 + (55296 + p) % 16 = 55296 + p := by omega
  have hm2 : ((56320 + q) / 4096 % 16) * 4096 + ((56320 + q) / 256 % 16) * 256 +
      ((56320 + q) / 16 % 16) * 16 + (56320 + q) % 16 = 56320 + q := by omega
  have g1 : 55296 ≤ 55296 + p ∧ 55296 + p ≤ 56319 := by omega
  have g2 : 56320 ≤ 56320 + q ∧ 56320 + q ≤ 57343 := by omega
  have harith : 65536 + (55296 + p - 55296) * 1024 + (56320 + q - 56320) =
      65536 + p * 1024 + q := by omega
  simp only [hex4, List.cons_append, List.nil_append]
  simp only [unescEsc, e3, e2, e1, e0, f3, f2, f1, f0]
  simp only [hm, hm2]
  simp only [if_pos g1]
  simp [g2, harith]

theorem unescF_lit (f : Nat) (c : Char) (t : List Char) (h1 : c ≠ '"') (h2 : c ≠ '\\')
    (h3 : 32 ≤ c.toNat) : unescF (f + 1) (c :: t) = consR c (unescF f t) := by
  simp only [unescF, if_neg h1, if_neg h2, if_neg (by omega : ¬ c.toNat < 32)]

theorem unescF_escChar (f : Nat) (c : Char) (t : List Char) :
    unescF (f + 1) (escChar c ++ t) = consR c (unescF f t) := by
  by_cases h1 : c = '"'
  · subst h1; simp [escChar, unescF, unescEsc]
  by_cases h2 : c = '\\'
  · subst h2; simp [escChar, unescF, unescEsc]
  by_cases h3 : c = '\n'
  · subst h3; simp [escChar, unescF, unescEsc]
  by_cases h4 : c = '\r'
  · subst h4; simp [escChar, unescF, unescEsc]
  by_cases h5 : c = '\t'
  · subst h5; simp [escChar, unescF, unescEsc]
  by_cases h6 : c.toNat = 8
  · have hc : Char.ofNat 8 = c := by rw [← h6, Char.ofNat_toNat]
    simp only [escChar, if_neg h1, if_neg h2, if_neg h3, if_neg h4, if_neg h5, if_pos h6]
    rw [← hc]
    simp [unescF, unescEsc]
  by_cases h7 : c.toNat = 12
  · have hc : Char.ofNat 12 = c := by rw [← h7, Char.ofNat_toNat]
    simp only [escChar, if_neg h1, if_neg h2, if_neg h3, if_neg h4, if_neg h5, if_neg h6,
      if_pos h7]
    rw [← hc]
    simp [unescF, unescEsc]
  by_cases h8 : c.toNat < 32 ∨ 126 < c.toNat
  · by_cases h9 : c.toNat < 65536
    · have hs : ¬ (55296 ≤ c.toNat ∧ c.toNat ≤ 57343) := by
        rcases char_toNat_valid c with h | ⟨ha, hb⟩ <;> omega
      simp only [escChar, if_neg h1, if_neg h2, if_neg h3, if_neg h4, if_neg h5, if_neg h6,
        if_neg h7, if_pos h8, if_pos h9, List.cons_append]
      rw [show unescF (f + 1) ('\\' :: 'u' :: (hex4 c.toNat ++ t)) =
          unescEsc (fun l => unescF f l) ('u' :: (hex4 c.toNat ++ t)) from by
        simp [unescF]]
      rw [unescEsc_u_bmp _ c.toNat h9 hs t, Char.ofNat_toNat]
    · have hv : c.toNat < 1114112 := by
        rcases char_toNat_valid c with h | ⟨ha, hb⟩ <;> omega
      simp only [escChar, if_neg h1, if_neg h2, if_neg h3, if_neg h4, if_neg h5, if_neg h6,
        if_neg h7, if_pos h8, if_neg h9, List.cons_append, List.append_assoc,
        List.nil_append]
      rw [show unescF (f + 1) ('\\' :: 'u' :: (hex4 (55296 + (c.toNat - 65536) / 1024) ++
          ('\\' :: 'u' :: (hex4 (56320 + (c.toNat - 65536) % 1024) ++ t)))) =
          unescEsc (fun l => unescF f l) ('u' :: (hex4 (55296 + (c.toNat - 65536) / 1024) ++
          ('\\' :: 'u' :: (hex4 (56320 + (c.toNat - 65536) % 1024) ++ t)))) from by
        simp [unescF]]
      rw [unescEsc_u_pair _ ((c.toNat - 65536) / 1024) ((c.toNat - 65536) % 1024)
        (by omega) (by omega) t]
      have harith : 65536 + (c.toNat - 65536) / 1024 * 1024 + (c.toNat - 65536) % 1024 =
          c.toNat := by omega
      rw [harith, Char.ofNat_toNat]
  · push_neg at h8
    simp only [escChar, if_neg h1, if_neg h2, if_neg h3, if_neg h4, if_neg h5, if_neg h6,
      if_neg h7, if_neg (by omega : ¬ (c.toNat < 32 ∨ 126 < c.toNat)), List.cons_append,
      List.nil_append]
    exact unescF_lit f c t h1 h2 (by omega)

theorem unescF_escList (cs : List Char) : ∀ (f : Nat) (t : List Char), cs.length < f →
    unescF f (escList cs ++ '"' :: t) = some (cs, t) := by
  induction cs with
  | nil =>
    intro f t hf
    cases f with
    | zero => omega
    | succ f => simp [escList, unescF]
  | cons c cs ih =>
    intro f t hf
    cases f with
    | zero => omega
    | succ f =>
      simp only [escList, List.append_assoc, List.cons_append]
      rw [unescF_escChar f c (escList cs ++ '"' :: t),
        ih f t (by simp only [List.length_cons] at hf; omega)]
      rfl

theorem one_le_length_escChar (c : Char) : 1 ≤ (escChar c).length := by
  unfold escChar
  split_ifs <;> simp [hex4]

theorem le_length_escList (cs : List Char) : cs.length ≤ (escList cs).length := by
  induction cs with
  | nil => simp [escList]
  | cons c cs ih =>
    have h := one_le_length_escChar c
    simp only [escList, List.length_append, List.length_cons]
    omega

theorem dumpsResponse_data (s : String) :
    (dumpsResponse s).data =
      ['\x7b', '"', 'r', 'e', 's', 'p', 'o', 'n', 's', 'e', '"', ':', ' ', '"'] ++
        (escList s.data ++ ('"' :: ['\x7d'])) := by
  show (("\x7b\"response\": " ++ dumpsStr s) ++ "\x7d").data = _
  rw [String.data_append, String.data_append]
  show ['\x7b', '"', 'r', 'e', 's', 'p', 'o', 'n', 's', 'e', '"', ':', ' '] ++
      (('"' :: (escList s.data ++ ['"'])) ++ ['\x7d']) = _
  simp [List.append_assoc]

theorem loads_dumps (s : String) : loadsResponse (dumpsResponse s) = some s := by
  have hd := dumpsResponse_data s
  unfold loadsResponse
  rw [hd]
  have ht : ((['\x7b', '"', 'r', 'e', 's', 'p', 'o', 'n', 's', 'e', '"', ':', ' ', '"'] : List Char) ++
      (escList s.data ++ ('"' :: ['\x7d']))).take 14 =
      ['\x7b', '"', 'r', 'e', 's', 'p', 'o', 'n', 's', 'e', '"', ':', ' ', '"'] := by
    rw [show (14 : Nat) =
      (['\x7b', '"', 'r', 'e', 's', 'p', 'o', 'n', 's', 'e', '"', ':', ' ', '"'] : List Char).length
      from rfl, List.take_left]
  have hdrop : ((['\x7b', '"', 'r', 'e', 's', 'p', 'o', 'n', 's', 'e', '"', ':', ' ', '"'] : List Char) ++
      (escList s.data ++ ('"' :: ['\x7d']))).drop 14 = escList s.data ++ ('"' :: ['\x7d']) := by
    rw [show (14 : Nat) =
      (['\x7b', '"', 'r', 'e', 's', 'p', 'o', 'n', 's', 'e', '"', ':', ' ', '"'] : List Char).length
      from rfl, List.drop_left]
  rw [if_pos ht, hdrop]
  have hb : s.data.length <
      ((['\x7b', '"', 'r', 'e', 's', 'p', 'o', 'n', 's', 'e', '"', ':', ' ', '"'] : List Char) ++
        (escList s.data ++ ('"' :: ['\x7d']))).length + 1 := by
    have h := le_length_escList s.data
    simp only [List.length_append, List.length_cons]
    omega
  rw [unescF_escList s.data _ ['\x7d'] hb]
  simp

/-- Lookup of a key in a JSON object (used to state extraction of the
`result.tools` field from a response envelope). -/
def objGet : Json → String → Option Json
  | .obj fields, k => fields.lookup k
  | _, _ => none

/-- The `result.tools` array carried by a response envelope, when present. -/
def resultTools (j : Json) : Option Json :=
  (objGet j "result").bind (fun r => objGet r "tools")

/-- A fully degraded environment: the store never connects and the
inference client is unavailable. -/
def env0 : Env := ⟨.connectFail, fun _ _ => .clientUnavailable⟩

/-- C1: for every request whose method is neither "tools/list" nor
"tools/call", and for every "tools/call" request naming an unregistered
tool, the dispatcher returns the error envelope with code -32601 and
message "Not found", echoes the request id, and makes no call to the
context store or the inference adapter (empty call trace). -/
theorem unknownMethodOrTool_errorResponse (env : Env) (data : RequestData)
    (h : (data.method.getD "" ≠ "tools/list" ∧ data.method.getD "" ≠ "tools/call") ∨
         (data.method.getD "" = "tools/call" ∧
           (data.params.getD ⟨none, none⟩).name.getD "" ≠ "bedrock_chat" ∧
           (data.params.getD ⟨none, none⟩).name.getD "" ≠ "bedrock_analyze")) :
    mcp_endpoint env data = (errorResponse (data.id.getD (Json.num 1)), []) := by
  rcases h with ⟨h1, h2⟩ | ⟨h1, h2, h3⟩
  · simp [mcp_endpoint, h1, h2]
  · simp [mcp_endpoint, h1, h2, h3]

/-- C1 witness: a request with method "foo" and a "tools/call" request for
the unregistered tool "nope" both get the -32601 envelope, with no
adapter calls. -/
theorem unknownMethodOrTool_errorResponse_witness :
    mcp_endpoint env0 ⟨some "foo", none, some (Json.num 5)⟩ =
      (errorResponse (Json.num 5), []) ∧
    mcp_endpoint env0 (mkCallReq "nope" [] (Json.num 6)) =
      (errorResponse (Json.num 6), []) :=
  ⟨unknownMethodOrTool_errorResponse env0 ⟨some "foo", none, some (Json.num 5)⟩
      (Or.inl ⟨by decide, by decide⟩),
    unknownMethodOrTool_errorResponse env0 (mkCallReq "nope" [] (Json.num 6))
      (Or.inr ⟨rfl, by decide, by decide⟩)⟩

/-- C2: every "tools/list" request, whatever its id and whatever the
collaborators do, gets the static two-descriptor registry with the id
echoed and no adapter calls; the `result.tools` field is the constant
`toolsListJson`, so any two such responses carry structurally identical
tool arrays. -/
theorem toolsList_static_registry (env : Env) (data : RequestData)
    (h : data.method.getD "" = "tools/list") :
    mcp_endpoint env data = (toolsListResponse (data.id.getD (Json.num 1)), []) ∧
    resultTools (mcp_endpoint env data).1 = some toolsListJson := by
  have h1 : mcp_endpoint env data = (toolsListResponse (data.id.getD (Json.num 1)), []) := by
    simp [mcp_endpoint, h]
  exact ⟨h1, by rw [h1]; rfl⟩

/-- C2 witness: a concrete "tools/list" request with id 2 in the degraded
environment. -/
theorem toolsList_static_registry_witness :
    mcp_endpoint env0 ⟨some "tools/list", none, some (Json.num 2)⟩ =
      (toolsListResponse (Json.num 2), []) ∧
    resultTools (mcp_endpoint env0 ⟨some "tools/list", none, some (Json.num 2)⟩).1 =
      some toolsListJson :=
  toolsList_static_registry env0 ⟨some "tools/list", none, some (Json.num 2)⟩ rfl

/-- C3: when the inference round trip raises with text `e`, the adapter
returns the in-band string "Error: " ++ e instead of raising, and a
bedrock_chat tools/call still produces the success envelope (a `result`
envelope, built by `successResponse`) carrying that string. -/
theorem inference_exception_inband_success (e : String)
    (bb : String → String → BedrockOutcome) (hbb : bb = fun _ _ => .raise e)
    (store : StoreBehavior) (args : List (String × String)) (req_id : Json)
    (m s : String) :
    call_bedrock bb m s = "Error: " ++ e ∧
    mcp_endpoint ⟨store, bb⟩ (mkCallReq "bedrock_chat" args req_id) =
      (successResponse req_id ("Error: " ++ e),
       [.storeQuery 3, .inference (dictGetD args "message" "")
          (SOVEREIGN_MIND_PROMPT ++ "\n\nHive Mind Context:\n" ++ query_hive_mind store 3)]) := by
  subst hbb
  exact ⟨rfl, rfl⟩

/-- C3 witness: an adapter raising "boom" yields completion text
"Error: boom" inside a success envelope for a concrete chat call. -/
theorem inference_exception_inband_success_witness :
    call_bedrock (fun _ _ => BedrockOutcome.raise "boom") "m" "s" = "Error: " ++ "boom" ∧
    mcp_endpoint ⟨.connectFail, fun _ _ => BedrockOutcome.raise "boom"⟩
        (mkCallReq "bedrock_chat" [] (Json.num 3)) =
      (successResponse (Json.num 3) ("Error: " ++ "boom"),
       [.storeQuery 3, .inference (dictGetD [] "message" "")
          (SOVEREIGN_MIND_PROMPT ++ "\n\nHive Mind Context:\n" ++
            query_hive_mind .connectFail 3)]) :=
  inference_exception_inband_success "boom" (fun _ _ => BedrockOutcome.raise "boom") rfl
    .connectFail [] (Json.num 3) "m" "s"

/-- C4 counterexample: a bedrock_analyze call with arguments containing
only "content" forwards the default task string "Analyze this" (from
`args.get(\x27task\x27, \x27Analyze this\x27)`) as the task part of the message, not
the empty string claimed. -/
theorem missing_task_defaults_counterexample :
    (mcp_endpoint env0 (mkCallReq "bedrock_analyze" [("content", "c")] (Json.num 1))).2 =
      [.storeQuery 3, .inference ("Analyze this" ++ "\n\nContent:\n" ++ "c")
        (SOVEREIGN_MIND_PROMPT ++ "\n\nHive Mind Context:\n" ++ "")] ∧
    ("Analyze this" ++ "\n\nContent:\n" ++ "c" : String) ≠ "" ++ "\n\nContent:\n" ++ "c" :=
  ⟨rfl, by decide⟩

/-- C4 amended: a registered tools/call is never rejected for missing
arguments; a missing "message" (bedrock_chat) and a missing "content"
(bedrock_analyze) are read as the empty string, while a missing "task"
(bedrock_analyze) is read as the default string "Analyze this". -/
theorem missing_args_defaults (env : Env)
    (args1 args2 args3 : List (String × String)) (t c : String) (req_id : Json)
    (h1 : args1.lookup "message" = none)
    (h2 : args2.lookup "task" = some t) (h3 : args2.lookup "content" = none)
    (h4 : args3.lookup "content" = some c) (h5 : args3.lookup "task" = none) :
    mcp_endpoint env (mkCallReq "bedrock_chat" args1 req_id) =
      (successResponse req_id (call_bedrock env.bedrock ""
          (SOVEREIGN_MIND_PROMPT ++ "\n\nHive Mind Context:\n" ++ query_hive_mind env.store 3)),
       [.storeQuery 3, .inference ""
          (SOVEREIGN_MIND_PROMPT ++ "\n\nHive Mind Context:\n" ++ query_hive_mind env.store 3)]) ∧
    mcp_endpoint env (mkCallReq "bedrock_analyze" args2 req_id) =
      (successResponse req_id (call_bedrock env.bedrock (t ++ "\n\nContent:\n" ++ "")
          (SOVEREIGN_MIND_PROMPT ++ "\n\nHive Mind Context:\n" ++ query_hive_mind env.store 3)),
       [.storeQuery 3, .inference (t ++ "\n\nContent:\n" ++ "")
          (SOVEREIGN_MIND_PROMPT ++ "\n\nHive Mind Context:\n" ++ query_hive_mind env.store 3)]) ∧
    mcp_endpoint env (mkCallReq "bedrock_analyze" args3 req_id) =
      (successResponse req_id (call_bedrock env.bedrock ("Analyze this" ++ "\n\nContent:\n" ++ c)
          (SOVEREIGN_MIND_PROMPT ++ "\n\nHive Mind Context:\n" ++ query_hive_mind env.store 3)),
       [.storeQuery 3, .inference ("Analyze this" ++ "\n\nContent:\n" ++ c)
          (SOVEREIGN_MIND_PROMPT ++ "\n\nHive Mind Context:\n" ++ query_hive_mind env.store 3)]) := by
  refine ⟨?_, ?_, ?_⟩ <;> simp [mcp_endpoint, mkCallReq, dictGetD, h1, h2, h3, h4, h5]

/-- C4 witness: concrete argument dictionaries lacking "message", lacking
"content", and lacking "task" respectively. -/
theorem missing_args_defaults_witness :
    mcp_endpoint env0 (mkCallReq "bedrock_chat" [] (Json.num 4)) =
      (successResponse (Json.num 4) (call_bedrock env0.bedrock ""
          (SOVEREIGN_MIND_PROMPT ++ "\n\nHive Mind Context:\n" ++ query_hive_mind env0.store 3)),
       [.storeQuery 3, .inference ""
          (SOVEREIGN_MIND_PROMPT ++ "\n\nHive Mind Context:\n" ++ query_hive_mind env0.store 3)]) ∧
    mcp_endpoint env0 (mkCallReq "bedrock_analyze" [("task", "t")] (Json.num 4)) =
      (successResponse (Json.num 4) (call_bedrock env0.bedrock ("t" ++ "\n\nContent:\n" ++ "")
          (SOVEREIGN_MIND_PROMPT ++ "\n\nHive Mind Context:\n" ++ query_hive_mind env0.store 3)),
       [.storeQuery 3, .inference ("t" ++ "\n\nContent:\n" ++ "")
          (SOVEREIGN_MIND_PROMPT ++ "\n\nHive Mind Context:\n" ++ query_hive_mind env0.store 3)]) ∧
    mcp_endpoint env0 (mkCallReq "bedrock_analyze" [("content", "c")] (Json.num 4)) =
      (successResponse (Json.num 4) (call_bedrock env0.bedrock ("Analyze this" ++ "\n\nContent:\n" ++ "c")
          (SOVEREIGN_MIND_PROMPT ++ "\n\nHive Mind Context:\n" ++ query_hive_mind env0.store 3)),
       [.storeQuery 3, .inference ("Analyze this" ++ "\n\nContent:\n" ++ "c")
          (SOVEREIGN_MIND_PROMPT ++ "\n\nHive Mind Context:\n" ++ query_hive_mind env0.store 3)]) :=
  missing_args_defaults env0 [] [("task", "t")] [("content", "c")] "t" "c" (Json.num 4)
    rfl (by decide) (by decide) (by decide) (by decide)

/-- C5 counterexample: on a missing client the adapter returns the string
"Bedrock client not available", which differs from the literal
"client not available" stated by the claim. -/
theorem client_unavailable_counterexample :
    call_bedrock (fun _ _ => BedrockOutcome.clientUnavailable) "x" "y" =
      "Bedrock client not available" ∧
    ("Bedrock client not available" : String) ≠ "client not available" :=
  ⟨rfl, by decide⟩

/-- C5 amended: whenever acquisition of the inference-service handle fails,
the adapter returns exactly the literal string
"Bedrock client not available" as the completion text. -/
theorem client_unavailable_literal (bb : String → String → BedrockOutcome)
    (m s : String) (h : bb m s = .clientUnavailable) :
    call_bedrock bb m s = "Bedrock client not available" := by
  simp [call_bedrock, h]

/-- C5 witness: the always-unavailable adapter at a concrete input. -/
theorem client_unavailable_literal_witness :
    call_bedrock (fun _ _ => BedrockOutcome.clientUnavailable) "m" "s" =
      "Bedrock client not available" :=
  client_unavailable_literal (fun _ _ => BedrockOutcome.clientUnavailable) "m" "s" rfl

/-- C6 counterexample: a decoded response whose content array is empty
makes the adapter return "Error: list index out of range" (the caught
IndexError from indexing the empty list), not the empty string. -/
theorem empty_content_counterexample :
    call_bedrock (fun _ _ => BedrockOutcome.respond (some [])) "m" "s" =
      "Error: list index out of range" ∧
    ("Error: list index out of range" : String) ≠ "" :=
  ⟨rfl, by decide⟩

/-- C6 amended: an empty content array yields the error string
"Error: list index out of range" rather than the empty string, while a
non-empty content array yields the text field of its first block
(defaulting to the empty string when that field is absent). -/
theorem content_extraction (bb1 bb2 : String → String → BedrockOutcome)
    (m s : String) (b : Option String) (rest : List (Option String))
    (h1 : bb1 m s = .respond (some []))
    (h2 : bb2 m s = .respond (some (b :: rest))) :
    call_bedrock bb1 m s = "Error: list index out of range" ∧
    call_bedrock bb2 m s = b.getD "" := by
  constructor <;> simp [call_bedrock, h1, h2]

/-- C6 witness: an empty content array and a one-block content array at
concrete inputs. -/
theorem content_extraction_witness :
    call_bedrock (fun _ _ => BedrockOutcome.respond (some [])) "m" "s" =
      "Error: list index out of range" ∧
    call_bedrock (fun _ _ => BedrockOutcome.respond (some [some "ok"])) "m" "s" =
      (some "ok").getD "" :=
  content_extraction (fun _ _ => BedrockOutcome.respond (some []))
    (fun _ _ => BedrockOutcome.respond (some [some "ok"])) "m" "s" (some "ok") [] rfl rfl

/-- C7: every context-store failure (connection failure or query
exception) makes `query_hive_mind` return the empty string, and a
bedrock_chat call under a failing store still returns the success
envelope, with the system prompt being the static identity prompt
followed by an empty context section. -/
theorem store_failure_silent_degradation :
    (∀ limit : Nat, query_hive_mind .connectFail limit = "" ∧
      query_hive_mind .queryFail limit = "") ∧
    (∀ (bb : String → String → BedrockOutcome) (args : List (String × String)) (req_id : Json),
      mcp_endpoint ⟨.connectFail, bb⟩ (mkCallReq "bedrock_chat" args req_id) =
        (successResponse req_id (call_bedrock bb (dictGetD args "message" "")
            (SOVEREIGN_MIND_PROMPT ++ "\n\nHive Mind Context:\n")),
         [.storeQuery 3, .inference (dictGetD args "message" "")
            (SOVEREIGN_MIND_PROMPT ++ "\n\nHive Mind Context:\n")])) ∧
    (∀ (bb : String → String → BedrockOutcome) (args : List (String × String)) (req_id : Json),
      mcp_endpoint ⟨.queryFail, bb⟩ (mkCallReq "bedrock_chat" args req_id) =
        (successResponse req_id (call_bedrock bb (dictGetD args "message" "")
            (SOVEREIGN_MIND_PROMPT ++ "\n\nHive Mind Context:\n")),
         [.storeQuery 3, .inference (dictGetD args "message" "")
            (SOVEREIGN_MIND_PROMPT ++ "\n\nHive Mind Context:\n")])) := by
  refine ⟨fun limit => ⟨rfl, rfl⟩, fun bb args req_id => ?_, fun bb args req_id => ?_⟩ <;>
    simp [mcp_endpoint, mkCallReq, query_hive_mind, String.append_empty]

/-- C8: a bedrock_analyze call whose arguments carry both "content" and
"task" submits exactly task ++ "\n\nContent:\n" ++ content as the user
message to the inference adapter. -/
theorem analyze_message_construction (env : Env) (args : List (String × String))
    (t c : String) (req_id : Json)
    (h1 : args.lookup "task" = some t) (h2 : args.lookup "content" = some c) :
    mcp_endpoint env (mkCallReq "bedrock_analyze" args req_id) =
      (successResponse req_id (call_bedrock env.bedrock (t ++ "\n\nContent:\n" ++ c)
          (SOVEREIGN_MIND_PROMPT ++ "\n\nHive Mind Context:\n" ++ query_hive_mind env.store 3)),
       [.storeQuery 3, .inference (t ++ "\n\nContent:\n" ++ c)
          (SOVEREIGN_MIND_PROMPT ++ "\n\nHive Mind Context:\n" ++ query_hive_mind env.store 3)]) := by
  simp [mcp_endpoint, mkCallReq, dictGetD, h1, h2]

/-- C8 witness: concrete task and content strings. -/
theorem analyze_message_construction_witness :
    mcp_endpoint env0 (mkCallReq "bedrock_analyze"
        [("content", "body"), ("task", "summarize")] (Json.num 8)) =
      (successResponse (Json.num 8) (call_bedrock env0.bedrock
          ("summarize" ++ "\n\nContent:\n" ++ "body")
          (SOVEREIGN_MIND_PROMPT ++ "\n\nHive Mind Context:\n" ++ query_hive_mind env0.store 3)),
       [.storeQuery 3, .inference ("summarize" ++ "\n\nContent:\n" ++ "body")
          (SOVEREIGN_MIND_PROMPT ++ "\n\nHive Mind Context:\n" ++ query_hive_mind env0.store 3)]) :=
  analyze_message_construction env0 [("content", "body"), ("task", "summarize")]
    "summarize" "body" (Json.num 8) (by decide) (by decide)

/-- C9: the tools/call success envelope carries one text block whose text
is the serialization of the response object, and deserializing it
recovers exactly the completion string; the "hello" echo example with id
7 produces the exact envelope of the spec. -/
theorem response_payload_roundtrip :
    (∀ s : String, loadsResponse (dumpsResponse s) = some s) ∧
    (∀ (env : Env) (args : List (String × String)) (req_id : Json),
      (mcp_endpoint env (mkCallReq "bedrock_chat" args req_id)).1 =
        successResponse req_id (call_bedrock env.bedrock (dictGetD args "message" "")
          (SOVEREIGN_MIND_PROMPT ++ "\n\nHive Mind Context:\n" ++ query_hive_mind env.store 3))) ∧
    mcp_endpoint ⟨.connectFail, fun m _ => .respond (some [some m])⟩
        (mkCallReq "bedrock_chat" [("message", "hello")] (Json.num 7)) =
      (Json.obj
        [ ("jsonrpc", Json.str "2.0"),
          ("id", Json.num 7),
          ("result", Json.obj
            [ ("content", Json.arr
                [ Json.obj
                    [ ("type", Json.str "text"),
                      ("text", Json.str "\x7b\"response\": \"hello\"\x7d") ] ]) ]) ],
       [.storeQuery 3, .inference "hello"
          (SOVEREIGN_MIND_PROMPT ++ "\n\nHive Mind Context:\n" ++
            query_hive_mind .connectFail 3)]) :=
  ⟨loads_dumps, fun env args req_id => rfl, rfl⟩

/-- C10: for all strings c and t and every adapter behaviour, a
bedrock_analyze call with arguments content = c and task = t returns the
same envelope and performs the same adapter calls as a bedrock_chat call
whose message is t ++ "\n\nContent:\n" ++ c, with the same id. -/
theorem analyze_chat_equivalence (env : Env) (c t : String) (req_id : Json) :
    mcp_endpoint env (mkCallReq "bedrock_analyze" [("content", c), ("task", t)] req_id) =
      mcp_endpoint env (mkCallReq "bedrock_chat"
        [("message", t ++ "\n\nContent:\n" ++ c)] req_id) :=
  rfl

end BedrockMcp
